import Mathlib

/-!
# The recommendation page script (`static/script.js`)

A shallow embedding of the click handler that `script.js` registers on the
`recommendButton` element, and of the promise chain it attaches to `fetch`.

* JavaScript strings are sequences of UTF-16 code units (`JSString`).  String
  literals of the script are written with `utf16`.
* The page is the record `Page`: the values of the three input elements, the
  markup last assigned to `results.innerHTML`, whether `loading` and `playGame`
  carry the class `hidden`, the number of click listeners on `playGame`, and
  logs of the `alert`, `fetch` and `window.open` calls.  The elements looked up
  with `getElementById` are taken to exist.  The `console` calls are omitted.
* `fetch` is asynchronous: `recommendButtonClick` is the synchronous part of
  the handler (lines 3-30) and `settle` is the chain of `then`/`catch`
  callbacks (lines 31-70) run on the outcome of one request.
* The network and the JSON parser are not modelled: a `FetchResult` carries
  what `fetch`, `response.text()` and `response.json()` deliver.
* The texts of the TypeErrors an engine raises are not fixed by ECMA-262; they
  are the parameter `Engine`.
-/

namespace RecommendScript

/-! ## Strings -/

/-- A UTF-16 code unit. -/
abbrev CodeUnit := Fin 65536

/-- A JavaScript string value: a finite sequence of UTF-16 code units. -/
abbrev JSString := List CodeUnit

/-- The UTF-16 code units of one Unicode scalar value. -/
def utf16Char (c : Char) : JSString :=
  if c.toNat < 0x10000 then [Fin.ofNat c.toNat]
  else [Fin.ofNat (0xD800 + (c.toNat - 0x10000) / 0x400),
        Fin.ofNat (0xDC00 + (c.toNat - 0x10000) % 0x400)]

/-- The JavaScript string with the given text. -/
def utf16 (s : String) : JSString := s.data.flatMap utf16Char

/-- ECMA-262 WhiteSpace and LineTerminator code points, the ones
`String.prototype.trim` strips: TAB, LF, VT, FF, CR, SP, NBSP, U+1680,
U+2000..U+200A, LS, PS, U+202F, U+205F, U+3000, ZWNBSP. -/
def isWhiteSpace (u : CodeUnit) : Bool :=
  u.val == 0x09 || u.val == 0x0A || u.val == 0x0B || u.val == 0x0C || u.val == 0x0D ||
  u.val == 0x20 || u.val == 0xA0 || u.val == 0x1680 ||
  (0x2000 ≤ u.val && u.val ≤ 0x200A) ||
  u.val == 0x2028 || u.val == 0x2029 || u.val == 0x202F || u.val == 0x205F ||
  u.val == 0x3000 || u.val == 0xFEFF

/-- The method `String.prototype.trim`. -/
def trim (s : JSString) : JSString :=
  ((s.dropWhile isWhiteSpace).reverse.dropWhile isWhiteSpace).reverse

/-- Leading (high) surrogate, 0xD800..0xDBFF. -/
def isLeadingSurrogate (u : CodeUnit) : Bool := 0xD800 ≤ u.val && u.val ≤ 0xDBFF

/-- Trailing (low) surrogate, 0xDC00..0xDFFF. -/
def isTrailingSurrogate (u : CodeUnit) : Bool := 0xDC00 ≤ u.val && u.val ≤ 0xDFFF

/-- The method `String.prototype.isWellFormed`: the string has no unpaired surrogate. -/
def isWellFormed : JSString → Bool
  | [] => true
  | [u] => !(isLeadingSurrogate u || isTrailingSurrogate u)
  | u :: v :: rest =>
    if isTrailingSurrogate u then false
    else if isLeadingSurrogate u then isTrailingSurrogate v && isWellFormed rest
    else isWellFormed (v :: rest)

/-! ## `encodeURIComponent` (ECMA-262 `Encode` with the empty extra set) -/

/-- The characters `encodeURIComponent` leaves as they are: ASCII letters and
digits and the marks hyphen, underscore, full stop, exclamation mark, tilde,
asterisk, apostrophe and the two round brackets. -/
def isUnescaped (u : CodeUnit) : Bool :=
  (0x41 ≤ u.val && u.val ≤ 0x5A) || (0x61 ≤ u.val && u.val ≤ 0x7A) ||
  (0x30 ≤ u.val && u.val ≤ 0x39) ||
  u.val == 0x2D || u.val == 0x5F || u.val == 0x2E || u.val == 0x21 || u.val == 0x7E ||
  u.val == 0x2A || u.val == 0x27 || u.val == 0x28 || u.val == 0x29

/-- The octets of the UTF-8 encoding of a code point. -/
def utf8Octets (cp : Nat) : List Nat :=
  if cp < 0x80 then [cp]
  else if cp < 0x800 then [0xC0 + cp / 0x40, 0x80 + cp % 0x40]
  else if cp < 0x10000 then [0xE0 + cp / 0x1000, 0x80 + cp / 0x40 % 0x40, 0x80 + cp % 0x40]
  else [0xF0 + cp / 0x40000, 0x80 + cp / 0x1000 % 0x40, 0x80 + cp / 0x40 % 0x40,
        0x80 + cp % 0x40]

/-- An upper-case hexadecimal digit. -/
def hexDigit (n : Nat) : CodeUnit :=
  if n < 10 then Fin.ofNat (0x30 + n) else Fin.ofNat (0x37 + n)

/-- The escape `%XY` of one octet. -/
def escapeOctet (b : Nat) : JSString := [0x25, hexDigit (b / 16), hexDigit (b % 16)]

/-- The escapes of the UTF-8 octets of a code point. -/
def escapeCodePoint (cp : Nat) : JSString := (utf8Octets cp).flatMap escapeOctet

/-- The code point of a surrogate pair. -/
def surrogatePairToCodePoint (lead trail : CodeUnit) : Nat :=
  (lead.val - 0xD800) * 0x400 + (trail.val - 0xDC00) + 0x10000

/-- The call `encodeURIComponent(s)`; `none` is the URIError thrown at an unpaired
surrogate. -/
def encodeURIComponent : JSString → Option JSString
  | [] => some []
  | [u] =>
    if isUnescaped u then some [u]
    else if isLeadingSurrogate u || isTrailingSurrogate u then none
    else some (escapeCodePoint u.val)
  | u :: v :: rest =>
    if isUnescaped u then (encodeURIComponent (v :: rest)).map (u :: ·)
    else if isTrailingSurrogate u then none
    else if isLeadingSurrogate u then
      if isTrailingSurrogate v then
        (encodeURIComponent rest).map (escapeCodePoint (surrogatePairToCodePoint u v) ++ ·)
      else none
    else (encodeURIComponent (v :: rest)).map (escapeCodePoint u.val ++ ·)

/-! ## The page -/

/-- The state of the page that the script reads and writes. -/
structure Page where
  /-- The `value` of the input `movieName`. -/
  movieName : JSString
  /-- The `value` of the input `movieGenre`. -/
  movieGenre : JSString
  /-- The `value` of the input `count`. -/
  count : JSString
  /-- The markup last assigned to `innerHTML` of `results`. -/
  resultsHTML : JSString
  /-- Whether `loading` has the class `hidden`. -/
  loadingHidden : Bool
  /-- Whether `playGame` has the class `hidden`. -/
  playGameHidden : Bool
  /-- The number of click listeners registered on `playGame`. -/
  playGameListeners : Nat
  /-- The messages passed to `alert`, oldest first. -/
  alerts : List JSString
  /-- The URLs passed to `fetch`, oldest first. -/
  fetched : List JSString
  /-- The number of requests whose outcome has not arrived yet. -/
  pending : Nat
  /-- The calls of `window.open` (URL and target), oldest first. -/
  opened : List (JSString × JSString)
  deriving DecidableEq, Repr

/-- Line 7: `count.value.trim() || 5`, as the text the template literal of
line 27 inserts for it. -/
def countText (value : JSString) : JSString :=
  if (trim value).isEmpty then utf16 "5" else trim value

/-- Line 13: the text of the alert. -/
def alertText : JSString := utf16 "Please enter both movie name and genre!"

/-- Line 27: the template literal of `apiUrl`; `none` when one of the two
`encodeURIComponent` calls throws. -/
def apiUrl (movieName movieGenre count : JSString) : Option JSString :=
  match encodeURIComponent movieName with
  | none => none
  | some n =>
    match encodeURIComponent movieGenre with
    | none => none
    | some g =>
      some (utf16 "http://localhost:8080/api/recommend?name=" ++ n ++ utf16 "&genre=" ++ g ++
        utf16 "&count=" ++ count)

/-- Line 12: the test that lets the handler go on. -/
def passesValidation (p : Page) : Bool :=
  !(trim p.movieName).isEmpty && !(trim p.movieGenre).isEmpty

/-- Lines 3-30: the synchronous part of the click handler of `recommendButton`.
A URIError raised in line 27 ends the handler after lines 18-25 took effect. -/
def recommendButtonClick (p : Page) : Page :=
  let movieName := trim p.movieName
  let movieGenre := trim p.movieGenre
  let count := countText p.count
  if movieName.isEmpty || movieGenre.isEmpty then
    { p with alerts := p.alerts ++ [alertText] }
  else
    let shown : Page :=
      { p with
        resultsHTML := []
        loadingHidden := false
        playGameHidden := false
        playGameListeners := p.playGameListeners + 1 }
    match apiUrl movieName movieGenre count with
    | none => shown
    | some url => { shown with fetched := shown.fetched ++ [url], pending := shown.pending + 1 }

/-- Line 24: the URL and target of the `window.open` call. -/
def playGameTarget : JSString × JSString := (utf16 "https://www.crazygames.com/", utf16 "_blank")

/-- A click on `playGame`: every registered listener runs line 24 once. -/
def playGameClick (p : Page) : Page :=
  { p with opened := p.opened ++ List.replicate p.playGameListeners playGameTarget }

/-! ## Parsed JSON and the outcome of a request -/

/-- A value delivered by `response.json()`.  A Number is kept as the text that
`ToString` gives for it; that text is `0` exactly for the Numbers `+0` and `-0`. -/
inductive Json where
  | null
  | bool (b : Bool)
  | num (shown : JSString)
  | str (s : JSString)
  | arr (items : List Json)
  | obj (props : List (JSString × Json))

/-- The response object that `fetch` resolves to: its status and what reading
the body with `text()` and with `json()` delivers (`error` carries the
`message` of the error the promise rejects with). -/
structure Response where
  status : Nat
  text : Except JSString JSString
  json : Except JSString Json

/-- The getter `response.ok`: the status is in the range 200-299. -/
def Response.ok (r : Response) : Bool := 200 ≤ r.status && r.status ≤ 299

/-- The outcome of one `fetch` call. -/
inductive FetchResult where
  /-- The promise rejects (the request could not be made); `message` is the
  `message` of the error. -/
  | rejected (message : JSString)
  /-- The promise resolves to a response. -/
  | fulfilled (response : Response)

/-- The six properties of a movie that the card template reads. -/
inductive Field where
  | name | rating | description | director | actors | similarity
  deriving DecidableEq, Repr

/-- The property name of a field. -/
def Field.key : Field → JSString
  | .name => utf16 "name"
  | .rating => utf16 "rating"
  | .description => utf16 "description"
  | .director => utf16 "director"
  | .actors => utf16 "actors"
  | .similarity => utf16 "similarity"

/-- The places of the second `then` callback at which a TypeError can arise. -/
inductive Fault where
  /-- Line 44: `data.length` with `data` null. -/
  | lengthOfNull
  /-- Line 50: `data.forEach` is not a function. -/
  | forEachNotCallable
  /-- Line 53: `movie.name` with `movie` null. -/
  | nameOfNull
  /-- Lines 53-58: the value of a field cannot be converted to a string. -/
  | notPrimitive (field : Field)

/-- A TypeError thrown in the second `then` callback: where it arose and the
offending value. -/
abbrev TypeError := Fault × Json

/-- The `message` an engine gives the TypeError raised at a fault, which may
depend on the offending value. -/
structure Engine where
  describe : Fault → Json → JSString

/-- The value of an own property of an object given by its property list (the
first pair with the key). -/
def ownProp (key : JSString) : List (JSString × Json) → Option Json
  | [] => none
  | (k, v) :: rest => if k = key then some v else ownProp key rest

mutual
/-- The conversion `ToString(v)` for a parsed JSON value, in the substitution
of `field`.  An object whose own property `toString` shadows
`Object.prototype.toString` has no callable conversion method left, and
`OrdinaryToPrimitive` throws a TypeError. -/
def Json.toStr (field : Field) : Json → Except TypeError JSString
  | .null => .ok (utf16 "null")
  | .bool b => .ok (if b then utf16 "true" else utf16 "false")
  | .num shown => .ok shown
  | .str s => .ok s
  | .arr items => Json.joinItems field true items
  | .obj props =>
    match ownProp (utf16 "toString") props with
    | some _ => .error (.notPrimitive field, .obj props)
    | none => .ok (utf16 "[object Object]")
/-- The method `Array.prototype.join` with the separator `,`: null elements
give the empty string, the others their `ToString`.  `first` says that no
separator goes before the next element. -/
def Json.joinItems (field : Field) (first : Bool) : List Json → Except TypeError JSString
  | [] => .ok []
  | .null :: rest =>
    match Json.joinItems field false rest with
    | .error e => .error e
    | .ok tail => .ok ((if first then [] else utf16 ",") ++ tail)
  | x :: rest =>
    match Json.toStr field x with
    | .error e => .error e
    | .ok head =>
      match Json.joinItems field false rest with
      | .error e => .error e
      | .ok tail => .ok ((if first then [] else utf16 ",") ++ head ++ tail)
end

/-- A substitution `${movie.f}` of the card template for a movie that is not
null: the property is read (`undefined` when the value has no such property)
and converted with `ToString`. -/
def substitution (movie : Json) (f : Field) : Except TypeError JSString :=
  match movie with
  | .obj props =>
    match ownProp f.key props with
    | none => .ok (utf16 "undefined")
    | some v => v.toStr f
  | _ => .ok (utf16 "undefined")

/-- Lines 51-60: the text of the template literal, given the six substituted
texts. -/
def cardTemplate (name rating description director actors similarity : JSString) : JSString :=
  utf16 "\n                        <div class=\"movie-card\">\n                            <h2>" ++
  name ++
  utf16 "</h2>\n                            <p><strong>Rating:</strong> " ++
  rating ++
  utf16 "</p>\n                            <p><strong>Description:</strong> " ++
  description ++
  utf16 "</p>\n                            <p><strong>Director:</strong> " ++
  director ++
  utf16 "</p>\n                            <p><strong>Actors:</strong> " ++
  actors ++
  utf16 "</p>\n                            <p><strong>Similarity:</strong> " ++
  similarity ++
  utf16 "</p>\n                        </div>\n                    "

/-- Lines 51-60: the template literal evaluated for one element of `data`.
The substitutions are evaluated in order, each converted to a string before
the next one is read. -/
def movieCard (movie : Json) : Except TypeError JSString :=
  match movie with
  | .null => .error (.nameOfNull, .null)
  | _ =>
    match substitution movie .name with
    | .error e => .error e
    | .ok name =>
    match substitution movie .rating with
    | .error e => .error e
    | .ok rating =>
    match substitution movie .description with
    | .error e => .error e
    | .ok description =>
    match substitution movie .director with
    | .error e => .error e
    | .ok director =>
    match substitution movie .actors with
    | .error e => .error e
    | .ok actors =>
    match substitution movie .similarity with
    | .error e => .error e
    | .ok similarity => .ok (cardTemplate name rating description director actors similarity)

/-- Lines 50-61: `data.forEach` over the elements of an array, appending each
card to `resultHTML`; an exception leaves the loop. -/
def forEachCard : List Json → JSString → Except TypeError JSString
  | [], resultHTML => .ok resultHTML
  | movie :: rest, resultHTML =>
    match movieCard movie with
    | .error e => .error e
    | .ok card => forEachCard rest (resultHTML ++ card)

/-- Line 44: `data.length === 0`. -/
def lengthIsZero : Json → Except TypeError Bool
  | .null => .error (.lengthOfNull, .null)
  | .bool _ => .ok false
  | .num _ => .ok false
  | .str s => .ok s.isEmpty
  | .arr items => .ok items.isEmpty
  | .obj props =>
    match ownProp (utf16 "length") props with
    | some (.num shown) => .ok (shown == utf16 "0")
    | _ => .ok false

/-- Line 45: the markup for an empty result. -/
def noRecommendations : JSString := utf16 "<p>No recommendations found.</p>"

/-- Line 49: the heading. -/
def heading : JSString := utf16 "<h2>Recommended Movies:</h2>"

/-- Lines 44-63: the markup that the second `then` callback assigns to
`results.innerHTML` last, or the TypeError it ends with. -/
def renderData (data : Json) : Except TypeError JSString :=
  match lengthIsZero data with
  | .error e => .error e
  | .ok true => .ok noRecommendations
  | .ok false =>
    match data with
    | .arr items => forEachCard items heading
    | other => .error (.forEachNotCallable, other)

/-- Line 69: the markup of the error message. -/
def errorHTML (message : JSString) : JSString :=
  utf16 "<p class=\"error-text\">Error fetching recommendations: " ++ message ++ utf16 "</p>"

/-- Lines 65-70: the `catch` callback, given `error.message`. -/
def catchCallback (message : JSString) (p : Page) : Page :=
  { p with loadingHidden := true, playGameHidden := true, resultsHTML := errorHTML message }

/-- Lines 31-37: the first `then` callback; `error` carries the message of the
error the returned promise rejects with. -/
def responseCallback (r : Response) : Except JSString Json :=
  if r.ok then r.json
  else
    match r.text with
    | .ok text => .error text
    | .error m => .error m

/-- Lines 38-64: the second `then` callback, followed by the `catch` callback
when it throws; `error.message` is then the text the engine gives the
TypeError. -/
def dataCallback (E : Engine) (data : Json) (p : Page) : Page :=
  let cleared : Page := { p with loadingHidden := true, playGameHidden := true, resultsHTML := [] }
  match renderData data with
  | .ok html => { cleared with resultsHTML := html }
  | .error (fault, value) => catchCallback (E.describe fault value) cleared

/-- Lines 30-70: the callbacks run when the outcome of a request arrives. -/
def settle (E : Engine) (o : FetchResult) (p : Page) : Page :=
  match o with
  | .rejected m => catchCallback m p
  | .fulfilled r =>
    match responseCallback r with
    | .error m => catchCallback m p
    | .ok data => dataCallback E data p

/-! ## Traces -/

/-- What can happen to the page. -/
inductive Event where
  /-- The user sets the three input fields. -/
  | edit (movieName movieGenre count : JSString)
  /-- A click on `recommendButton`. -/
  | recommend
  /-- The outcome of a pending request arrives. -/
  | outcome (o : FetchResult)
  /-- A click on `playGame`. -/
  | playGame

/-- One event. -/
def step (E : Engine) (p : Page) : Event → Page
  | .edit n g c => { p with movieName := n, movieGenre := g, count := c }
  | .recommend => recommendButtonClick p
  | .outcome o => if p.pending = 0 then p else settle E o { p with pending := p.pending - 1 }
  | .playGame => playGameClick p

/-- A sequence of events. -/
def run (E : Engine) (p : Page) (events : List Event) : Page := events.foldl (step E) p

/-- The number of clicks on `recommendButton` in a trace. -/
def activations : List Event → Nat
  | [] => 0
  | .recommend :: rest => activations rest + 1
  | _ :: rest => activations rest

/-- The number of clicks on `recommendButton` in a trace that found both the
trimmed name and the trimmed genre non-empty. -/
def validActivations (E : Engine) : Page → List Event → Nat
  | _, [] => 0
  | p, .recommend :: rest =>
    (if passesValidation p then 1 else 0) + validActivations E (step E p .recommend) rest
  | p, e :: rest => validActivations E (step E p e) rest

/-- The page as loaded, before any event: nothing registered, nothing logged. -/
def Page.loaded (movieName movieGenre count resultsHTML : JSString)
    (loadingHidden playGameHidden : Bool) : Page :=
  { movieName := movieName, movieGenre := movieGenre, count := count
    resultsHTML := resultsHTML, loadingHidden := loadingHidden
    playGameHidden := playGameHidden, playGameListeners := 0
    alerts := [], fetched := [], pending := 0, opened := [] }

/-! ## Definitions the statements use -/

/-- The six field values of a Recommendation of the data model, as texts. -/
structure Recommendation where
  name : JSString
  rating : JSString
  description : JSString
  director : JSString
  actors : JSString
  similarity : JSString
  deriving DecidableEq, Repr

/-- The text of a field of `movie` when `movie` is an object whose own property
of that name is a string (the text is the string itself) or a Number (the text
is its `ToString`). -/
def fieldText (movie : Json) (f : Field) : Option JSString :=
  match movie with
  | .obj props =>
    match ownProp f.key props with
    | some (.str s) => some s
    | some (.num shown) => some shown
    | _ => none
  | _ => none

/-- The element `movie` of a response is a Recommendation object with the
field values `r`: an object holding each of the six fields as a string or a
Number. -/
def IsRecommendation (movie : Json) (r : Recommendation) : Prop :=
  fieldText movie .name = some r.name ∧
  fieldText movie .rating = some r.rating ∧
  fieldText movie .description = some r.description ∧
  fieldText movie .director = some r.director ∧
  fieldText movie .actors = some r.actors ∧
  fieldText movie .similarity = some r.similarity

instance (movie : Json) (r : Recommendation) : Decidable (IsRecommendation movie r) :=
  inferInstanceAs (Decidable (_ ∧ _))

/-- The card of a Recommendation: the template of lines 51-60 around the six
field values. -/
def Recommendation.card (r : Recommendation) : JSString :=
  cardTemplate r.name r.rating r.description r.director r.actors r.similarity

/-- Whether a value is `null`. -/
def Json.isNull : Json → Bool
  | .null => true
  | _ => false

/-- The parsed bodies that are not a sequence of objects and that the second
`then` callback cannot render: `null`, a Number, a boolean, a non-empty string,
an array with a `null` element, and an object unless its own property `length`
is the Number 0. -/
def notMovieList : Json → Bool
  | .null => true
  | .bool _ => true
  | .num _ => true
  | .str s => !s.isEmpty
  | .arr items => items.any Json.isNull
  | .obj props =>
    match ownProp (utf16 "length") props with
    | some (.num shown) => shown != utf16 "0"
    | _ => true

/-- Whether `a` is followed at once by `b` somewhere in a string. -/
def adjacent (a b : CodeUnit) : JSString → Bool
  | [] => false
  | x :: rest => (x == a && rest.head? == some b) || adjacent a b rest

/-- The TypeError messages of the V8 engine at the four faults. -/
def v8 : Engine where
  describe
    | .lengthOfNull, _ => utf16 "Cannot read properties of null (reading \x27length\x27)"
    | .forEachNotCallable, _ => utf16 "data.forEach is not a function"
    | .nameOfNull, _ => utf16 "Cannot read properties of null (reading \x27name\x27)"
    | .notPrimitive _, _ => utf16 "Cannot convert object to primitive value"

/-- An example response body: two movies, the first with Numbers for rating and
similarity, the second with its properties in another order and a seventh
property. -/
def twoMovies : List Json :=
  [.obj [(utf16 "name", .str (utf16 "Up")), (utf16 "rating", .num (utf16 "8.3")),
         (utf16 "description", .str (utf16 "A <b>house</b> & balloons")),
         (utf16 "director", .str (utf16 "Pete Docter")),
         (utf16 "actors", .str (utf16 "Ed Asner")),
         (utf16 "similarity", .num (utf16 "0.91"))],
   .obj [(utf16 "similarity", .str (utf16 "0.5")), (utf16 "actors", .str (utf16 "Tom Hanks")),
         (utf16 "director", .str (utf16 "John Lasseter")),
         (utf16 "description", .str (utf16 "Toys")),
         (utf16 "rating", .str (utf16 "8.3/10")), (utf16 "name", .str (utf16 "Toy Story")),
         (utf16 "year", .num (utf16 "1995"))]]

/-- The field values of `twoMovies`. -/
def twoRecommendations : List Recommendation :=
  [⟨utf16 "Up", utf16 "8.3", utf16 "A <b>house</b> & balloons", utf16 "Pete Docter",
    utf16 "Ed Asner", utf16 "0.91"⟩,
   ⟨utf16 "Toy Story", utf16 "8.3/10", utf16 "Toys", utf16 "John Lasseter",
    utf16 "Tom Hanks", utf16 "0.5"⟩]

/-- The unreserved characters: ASCII letters and digits and the nine marks. -/
def isUnreservedChar (c : Char) : Bool :=
  ('A'.toNat ≤ c.toNat && c.toNat ≤ 'Z'.toNat) || ('a'.toNat ≤ c.toNat && c.toNat ≤ 'z'.toNat) ||
  ('0'.toNat ≤ c.toNat && c.toNat ≤ '9'.toNat) ||
  c == '-' || c == '_' || c == '.' || c == '!' || c == '~' || c == '*' || c.toNat == 0x27 ||
  c == '(' || c == ')'

/-- Percent-encoding of a text as the specification words it: an unreserved
character is kept, every other character is replaced by the escapes `%XX` of
the octets of its UTF-8 encoding. -/
def percentEncode (text : String) : JSString :=
  text.data.flatMap fun c => if isUnreservedChar c then utf16Char c else escapeCodePoint c.toNat

/-- The value of a hexadecimal digit. -/
def hexValue (u : CodeUnit) : Option Nat :=
  if 0x30 ≤ u.val ∧ u.val ≤ 0x39 then some (u.val - 0x30)
  else if 0x41 ≤ u.val ∧ u.val ≤ 0x46 then some (u.val - 0x37)
  else if 0x61 ≤ u.val ∧ u.val ≤ 0x66 then some (u.val - 0x57)
  else none

/-- Percent-decoding, first pass: every escape `%XY` becomes its octet
(`inr`), every other code unit stays (`inl`); `none` at a `%` that does not
start an escape. -/
def unescape : JSString → Option (List (CodeUnit ⊕ Nat))
  | [] => some []
  | u :: rest =>
    if u = 0x25 then
      match rest with
      | h :: l :: rest2 =>
        match hexValue h, hexValue l with
        | some a, some b => (unescape rest2).map (.inr (16 * a + b) :: ·)
        | _, _ => none
      | _ => none
    else (unescape rest).map (.inl u :: ·)

/-- A UTF-8 continuation octet. -/
def isContinuation (b : Nat) : Bool := 0x80 ≤ b && b < 0xC0

/-- The UTF-16 code units of a code point. -/
def utf16OfCodePoint (cp : Nat) : JSString :=
  if cp < 0x10000 then [Fin.ofNat cp]
  else [Fin.ofNat (0xD800 + (cp - 0x10000) / 0x400), Fin.ofNat (0xDC00 + (cp - 0x10000) % 0x400)]

/-- Percent-decoding, second pass: the octets are read as UTF-8.  `need` is the
number of continuation octets still to come for the code point being read,
`acc` the bits read so far and `low` the least code point that may take that
many octets; `none` at an octet sequence that is not the UTF-8 encoding of a
code point. -/
def decodeFrom (need acc low : Nat) : List (CodeUnit ⊕ Nat) → Option JSString
  | [] => if need = 0 then some [] else none
  | .inl u :: rest => if need = 0 then (decodeFrom 0 0 0 rest).map (u :: ·) else none
  | .inr b :: rest =>
    if need = 0 then
      if b < 0x80 then (decodeFrom 0 0 0 rest).map (Fin.ofNat b :: ·)
      else if b < 0xC0 then none
      else if b < 0xE0 then decodeFrom 1 (b - 0xC0) 0x80 rest
      else if b < 0xF0 then decodeFrom 2 (b - 0xE0) 0x800 rest
      else if b < 0xF8 then decodeFrom 3 (b - 0xF0) 0x10000 rest
      else none
    else if isContinuation b then
      if need = 1 then
        if low ≤ acc * 0x40 + (b - 0x80) ∧ acc * 0x40 + (b - 0x80) ≤ 0x10FFFF ∧
            ¬ (0xD800 ≤ acc * 0x40 + (b - 0x80) ∧ acc * 0x40 + (b - 0x80) ≤ 0xDFFF) then
          (decodeFrom 0 0 0 rest).map (utf16OfCodePoint (acc * 0x40 + (b - 0x80)) ++ ·)
        else none
      else decodeFrom (need - 1) (acc * 0x40 + (b - 0x80)) low rest
    else none

/-- Percent-decoding, second pass, from the start of the text. -/
def decodeOctets (tokens : List (CodeUnit ⊕ Nat)) : Option JSString := decodeFrom 0 0 0 tokens

/-- Percent-decoding of a query value (`decodeURIComponent`); `none` when the
text is not a percent-encoding. -/
def percentDecode (s : JSString) : Option JSString :=
  match unescape s with
  | none => none
  | some tokens => decodeOctets tokens

/-- The pieces of a string between the occurrences of a separator. -/
def splitOn (sep : CodeUnit) : JSString → List JSString
  | [] => [[]]
  | u :: rest =>
    if u = sep then [] :: splitOn sep rest
    else
      match splitOn sep rest with
      | [] => [[u]]
      | piece :: pieces => (u :: piece) :: pieces

/-- The query string of a URL: what follows the first `?`. -/
def queryString (url : JSString) : JSString := (url.dropWhile (· != 0x3F)).drop 1

/-- The query parameters of a URL as a server reads them: the query string is
split on `&`, each piece on its first `=` into a name and a value, and the
value is percent-decoded (`none` when it cannot be). -/
def queryParameters (url : JSString) : List (JSString × Option JSString) :=
  (splitOn 0x26 (queryString url)).map fun piece =>
    (piece.takeWhile (· != 0x3D), percentDecode ((piece.dropWhile (· != 0x3D)).drop 1))

set_option maxRecDepth 8000

/-! ## Helper lemmas -/

theorem trim_eq_nil_iff (s : JSString) : trim s = [] ↔ ∀ u ∈ s, isWhiteSpace u = true := by
  unfold trim
  rw [List.reverse_eq_nil_iff, List.dropWhile_eq_nil_iff]
  constructor
  · intro h
    rw [← List.dropWhile_eq_nil_iff]
    by_contra hne
    have h1 := List.head_dropWhile_not isWhiteSpace s hne
    have h2 := h _ (List.mem_reverse.mpr (List.head_mem hne))
    simp [h2] at h1
  · intro h
    rw [List.dropWhile_eq_nil_iff.mpr h]
    simp

theorem isUnescaped_not_surrogate (u : CodeUnit) (h : isUnescaped u = true) :
    isLeadingSurrogate u = false ∧ isTrailingSurrogate u = false := by
  simp only [isUnescaped, isLeadingSurrogate, isTrailingSurrogate, Bool.or_eq_true,
    Bool.and_eq_true, decide_eq_true_eq, beq_iff_eq, Bool.and_eq_false_iff,
    decide_eq_false_iff_not] at h ⊢
  omega

/-- On a string without unpaired surrogates `encodeURIComponent` returns. -/
theorem encodeURIComponent_isSome (s : JSString) (h : isWellFormed s = true) :
    (encodeURIComponent s).isSome = true := by
  induction s using encodeURIComponent.induct with
  | case5 u v rest hu ih =>
    have := isUnescaped_not_surrogate u hu
    simp_all [encodeURIComponent, isWellFormed]
  | _ => simp_all [encodeURIComponent, isWellFormed]

/-- At an unpaired surrogate `encodeURIComponent` throws. -/
theorem encodeURIComponent_eq_none (s : JSString) (h : isWellFormed s = false) :
    encodeURIComponent s = none := by
  induction s using encodeURIComponent.induct with
  | case2 u hu =>
    have := isUnescaped_not_surrogate u hu
    simp_all [encodeURIComponent, isWellFormed]
  | case5 u v rest hu ih =>
    have := isUnescaped_not_surrogate u hu
    simp_all [encodeURIComponent, isWellFormed]
  | _ => simp_all [encodeURIComponent, isWellFormed]

theorem recommendButtonClick_of_valid (p : Page) (h : passesValidation p = true) :
    recommendButtonClick p =
      match apiUrl (trim p.movieName) (trim p.movieGenre) (countText p.count) with
      | none =>
        { p with
          resultsHTML := []
          loadingHidden := false
          playGameHidden := false
          playGameListeners := p.playGameListeners + 1 }
      | some url =>
        { p with
          resultsHTML := []
          loadingHidden := false
          playGameHidden := false
          playGameListeners := p.playGameListeners + 1
          fetched := p.fetched ++ [url]
          pending := p.pending + 1 } := by
  simp only [passesValidation, Bool.and_eq_true, Bool.not_eq_true'] at h
  simp only [recommendButtonClick, h.1, h.2, Bool.or_self, Bool.false_eq_true, if_false]

/-- A click that passes validation with an unpaired surrogate in the trimmed
name makes no request: the URIError of line 27 ends the handler, after lines
18-25 showed the loading indicator and registered the listener. -/
theorem recommendButtonClick_of_unpaired (p : Page) (hv : passesValidation p = true)
    (hw : isWellFormed (trim p.movieName) = false) :
    (recommendButtonClick p).fetched = p.fetched ∧
      (recommendButtonClick p).loadingHidden = false ∧
      (recommendButtonClick p).playGameListeners = p.playGameListeners + 1 := by
  rw [recommendButtonClick_of_valid p hv]
  simp [apiUrl, encodeURIComponent_eq_none _ hw]

/-- A click that passes validation and whose two `encodeURIComponent` calls
return makes one request, with the URL of line 27. -/
theorem recommendButtonClick_fetched (p : Page) (n g : JSString)
    (hn : trim p.movieName ≠ []) (hg : trim p.movieGenre ≠ [])
    (en : encodeURIComponent (trim p.movieName) = some n)
    (eg : encodeURIComponent (trim p.movieGenre) = some g) :
    (recommendButtonClick p).fetched =
      p.fetched ++ [utf16 "http://localhost:8080/api/recommend?name=" ++ n ++
        utf16 "&genre=" ++ g ++ utf16 "&count=" ++ countText p.count] := by
  have hv : passesValidation p = true := by
    simp [passesValidation, List.isEmpty_iff, hn, hg]
  rw [recommendButtonClick_of_valid p hv]
  simp [apiUrl, en, eg]

theorem substitution_of_fieldText (movie : Json) (f : Field) (t : JSString)
    (h : fieldText movie f = some t) : substitution movie f = .ok t := by
  cases movie with
  | obj props =>
    simp only [fieldText] at h
    simp only [substitution]
    cases hp : ownProp f.key props with
    | none => simp [hp] at h
    | some v =>
      cases v <;> simp_all [Json.toStr]
  | _ => simp [fieldText] at h

theorem movieCard_of_isRecommendation (movie : Json) (r : Recommendation)
    (h : IsRecommendation movie r) : movieCard movie = .ok r.card := by
  obtain ⟨h1, h2, h3, h4, h5, h6⟩ := h
  cases movie with
  | obj props =>
    simp only [movieCard, substitution_of_fieldText _ _ _ h1, substitution_of_fieldText _ _ _ h2,
      substitution_of_fieldText _ _ _ h3, substitution_of_fieldText _ _ _ h4,
      substitution_of_fieldText _ _ _ h5, substitution_of_fieldText _ _ _ h6,
      Recommendation.card]
  | _ => simp [fieldText] at h1

theorem forEachCard_of_isRecommendation (items : List Json) (recs : List Recommendation)
    (h : List.Forall₂ IsRecommendation items recs) (resultHTML : JSString) :
    forEachCard items resultHTML = .ok (resultHTML ++ recs.flatMap Recommendation.card) := by
  induction h generalizing resultHTML with
  | nil => simp [forEachCard]
  | cons hx _ ih =>
    simp [forEachCard, movieCard_of_isRecommendation _ _ hx, ih]

theorem settle_playGameListeners (E : Engine) (o : FetchResult) (q : Page) :
    (settle E o q).playGameListeners = q.playGameListeners := by
  cases o with
  | rejected m => simp [settle, catchCallback]
  | fulfilled r =>
    simp only [settle]
    cases responseCallback r with
    | error m => simp [catchCallback]
    | ok data =>
      simp only [dataCallback]
      rcases renderData data with ⟨fault, value⟩ | html <;> simp [catchCallback]

theorem step_playGameListeners (E : Engine) (p : Page) (e : Event) :
    (step E p e).playGameListeners = p.playGameListeners + validActivations E p [e] := by
  cases e with
  | edit n g c => simp [step, validActivations]
  | recommend =>
    cases hv : passesValidation p with
    | true =>
      simp only [step, validActivations, hv, if_true, recommendButtonClick_of_valid p hv]
      cases apiUrl (trim p.movieName) (trim p.movieGenre) (countText p.count) <;> rfl
    | false =>
      have hv1 := hv
      simp only [passesValidation, Bool.and_eq_false_iff, Bool.not_eq_false'] at hv1
      have hv2 : ((trim p.movieName).isEmpty || (trim p.movieGenre).isEmpty) = true := by
        rcases hv1 with h | h <;> simp [h]
      simp [step, validActivations, recommendButtonClick, hv2, hv]
  | outcome o =>
    simp only [step, validActivations, Nat.add_zero]
    split
    · rfl
    · rw [settle_playGameListeners]
  | playGame => simp [step, validActivations, playGameClick]

theorem validActivations_cons (E : Engine) (p : Page) (e : Event) (rest : List Event) :
    validActivations E p (e :: rest) =
      validActivations E p [e] + validActivations E (step E p e) rest := by
  cases e <;> simp [validActivations]

theorem run_playGameListeners (E : Engine) (events : List Event) (p : Page) :
    (run E p events).playGameListeners = p.playGameListeners + validActivations E p events := by
  induction events generalizing p with
  | nil => simp [run, validActivations]
  | cons e rest ih =>
    have h := ih (step E p e)
    simp only [run, List.foldl_cons] at h ⊢
    rw [validActivations_cons E p e rest, h, step_playGameListeners]
    omega

theorem validActivations_le (E : Engine) (events : List Event) (p : Page) :
    validActivations E p events ≤ activations events := by
  induction events generalizing p with
  | nil => simp [validActivations, activations]
  | cons e rest ih =>
    have h := ih (step E p e)
    cases e with
    | recommend =>
      simp only [validActivations, activations]
      split <;> omega
    | _ => simpa [validActivations, activations] using h

theorem forEachCard_of_null (items : List Json) (h : items.any Json.isNull = true)
    (resultHTML : JSString) : ∃ e, forEachCard items resultHTML = .error e := by
  induction items generalizing resultHTML with
  | nil => simp at h
  | cons x rest ih =>
    simp only [forEachCard]
    cases hc : movieCard x with
    | error e => exact ⟨e, rfl⟩
    | ok card =>
      have hx : x.isNull = false := by
        cases x <;> simp_all [movieCard, Json.isNull]
      simp only [List.any_cons, hx, Bool.false_or] at h
      exact ih h _

theorem renderData_of_notMovieList (data : Json) (h : notMovieList data = true) :
    ∃ e, renderData data = .error e := by
  cases data with
  | null => exact ⟨_, rfl⟩
  | bool b => exact ⟨_, rfl⟩
  | num shown => exact ⟨_, rfl⟩
  | str s =>
    simp only [notMovieList, Bool.not_eq_true'] at h
    exact ⟨(.forEachNotCallable, .str s), by simp [renderData, lengthIsZero, h]⟩
  | arr items =>
    simp only [notMovieList] at h
    have hne : items.isEmpty = false := by
      cases items with
      | nil => simp at h
      | cons _ _ => rfl
    obtain ⟨e, he⟩ := forEachCard_of_null items h heading
    exact ⟨e, by simp [renderData, lengthIsZero, hne, he]⟩
  | obj props =>
    refine ⟨(.forEachNotCallable, .obj props), ?_⟩
    have hz : lengthIsZero (.obj props) = .ok false := by
      simp only [notMovieList] at h
      simp only [lengthIsZero]
      split <;> simp_all
    simp [renderData, hz]

theorem adjacent_cons (a b x : CodeUnit) (rest : JSString) :
    adjacent a b (x :: rest) = ((x == a && rest.head? == some b) || adjacent a b rest) := rfl

theorem adjacent_append (a b : CodeUnit) (x y : JSString) :
    adjacent a b (x ++ y) =
      (adjacent a b x || (x.getLast? == some a && y.head? == some b) || adjacent a b y) := by
  induction x with
  | nil => simp [adjacent]
  | cons u rest ih =>
    cases rest with
    | nil => simp [adjacent]
    | cons v rest2 =>
      rw [List.cons_append, adjacent_cons, ih, adjacent_cons a b u (v :: rest2),
        List.getLast?_cons_cons]
      simp only [List.cons_append, List.head?_cons, Bool.or_assoc]

theorem adjacent_of_infix (a b : CodeUnit) (k l : JSString) (h : k <:+: l)
    (hk : adjacent a b k = true) : adjacent a b l = true := by
  obtain ⟨s, t, rfl⟩ := h
  simp [adjacent_append, hk]

theorem adjacent_of_not_mem (a b : CodeUnit) (m : JSString) (h : a ∉ m) :
    adjacent a b m = false := by
  induction m with
  | nil => rfl
  | cons u rest ih =>
    simp only [List.mem_cons, not_or] at h
    have hu : (u == a) = false := by
      simp only [beq_eq_false_iff_ne, ne_eq]
      exact fun e => h.1 e.symm
    simp [adjacent, hu, ih h.2]

/-- The error markup around a message without `<` holds no `<` followed by `b`
unless `b` is `p` or `/`. -/
theorem adjacent_errorHTML (b : CodeUnit) (m : JSString) (hm : (0x3C : CodeUnit) ∉ m)
    (hp : b ≠ 0x70) (hs : b ≠ 0x2F) : adjacent 0x3C b (errorHTML m) = false := by
  have hA : utf16 "<p class=\"error-text\">Error fetching recommendations: " =
      (0x3C : CodeUnit) :: utf16 "p class=\"error-text\">Error fetching recommendations: " := by
    rfl
  have hA2 : adjacent 0x3C b
      (utf16 "p class=\"error-text\">Error fetching recommendations: ") = false :=
    adjacent_of_not_mem _ _ _ (by decide)
  have hA3 : (utf16 "<p class=\"error-text\">Error fetching recommendations: ").getLast? =
      some 0x20 := by rfl
  have hA4 : (utf16 "p class=\"error-text\">Error fetching recommendations: ").head? =
      some 0x70 := by rfl
  have hB : utf16 "</p>" = (0x3C : CodeUnit) :: utf16 "/p>" := by rfl
  have hB2 : adjacent 0x3C b (utf16 "/p>") = false := adjacent_of_not_mem _ _ _ (by decide)
  have hB4 : (utf16 "/p>").head? = some 0x2F := by rfl
  have hb1 : (some (0x70 : CodeUnit) == some b) = false := by
    simp only [beq_eq_false_iff_ne, ne_eq, Option.some.injEq]
    exact fun e => hp e.symm
  have hb2 : (some (0x2F : CodeUnit) == some b) = false := by
    simp only [beq_eq_false_iff_ne, ne_eq, Option.some.injEq]
    exact fun e => hs e.symm
  have hA1 : adjacent 0x3C b
      (utf16 "<p class=\"error-text\">Error fetching recommendations: ") = false := by
    rw [hA, adjacent_cons, hA2, hA4, hb1]
    rfl
  have hB1 : adjacent 0x3C b (utf16 "</p>") = false := by
    rw [hB, adjacent_cons, hB2, hB4, hb2]
    rfl
  have hlast : ((utf16 "<p class=\"error-text\">Error fetching recommendations: " ++ m).getLast? ==
      some (0x3C : CodeUnit)) = false := by
    rw [List.getLast?_append]
    cases h : m.getLast? with
    | none => rw [hA3]; rfl
    | some u =>
      have hu : u ∈ m := List.mem_of_getLast?_eq_some h
      simp only [Option.or_some, beq_eq_false_iff_ne, ne_eq, Option.some.injEq]
      intro e
      exact hm (e ▸ hu)
  have hsp : (some (0x20 : CodeUnit) == some (0x3C : CodeUnit)) = false := by decide
  simp only [errorHTML, adjacent_append, hA1, hB1, adjacent_of_not_mem _ b m hm, hA3, hlast, hsp,
    Bool.false_and, Bool.or_false, Bool.false_or]

theorem hexDigit_isUnescaped (n : Nat) (h : n < 16) : isUnescaped (hexDigit n) = true := by
  interval_cases n <;> decide

theorem escapeCodePoint_chars (cp : Nat) (h : cp < 0x110000) :
    ∀ u ∈ escapeCodePoint cp, isUnescaped u = true ∨ u = 0x25 := by
  intro u hu
  simp only [escapeCodePoint, List.mem_flatMap] at hu
  obtain ⟨b, hb, hu⟩ := hu
  have hb256 : b < 256 := by
    simp only [utf8Octets] at hb
    split at hb
    · simp at hb; omega
    · split at hb
      · simp at hb; omega
      · split at hb
        · simp at hb; omega
        · simp at hb; omega
  simp only [escapeOctet, List.mem_cons, List.mem_singleton, List.not_mem_nil, or_false] at hu
  rcases hu with rfl | rfl | rfl
  · exact Or.inr rfl
  · exact Or.inl (hexDigit_isUnescaped _ (by omega))
  · exact Or.inl (hexDigit_isUnescaped _ (by omega))

theorem surrogatePairToCodePoint_lt (u v : CodeUnit) (hu : isLeadingSurrogate u = true)
    (hv : isTrailingSurrogate v = true) : surrogatePairToCodePoint u v < 0x110000 := by
  simp only [isLeadingSurrogate, isTrailingSurrogate, Bool.and_eq_true, decide_eq_true_eq] at hu hv
  simp only [surrogatePairToCodePoint]
  omega

/-- The text `encodeURIComponent` returns holds only unescaped characters and
`%`: none of `&`, `=`, `?`, `#`, `+` or white space. -/
theorem encodeURIComponent_chars (s e : JSString) (h : encodeURIComponent s = some e) :
    ∀ u ∈ e, isUnescaped u = true ∨ u = 0x25 := by
  induction s using encodeURIComponent.induct generalizing e with
  | case1 =>
    simp only [encodeURIComponent, Option.some.injEq] at h
    subst h
    simp
  | case2 u hu =>
    simp [encodeURIComponent, hu] at h
    subst h
    simpa using Or.inl hu
  | case3 u hu hs => simp [encodeURIComponent, hu, hs] at h
  | case4 u hu hs =>
    simp only [encodeURIComponent, hu, hs] at h
    simp only [Bool.false_eq_true, if_false, Option.some.injEq] at h
    subst h
    exact escapeCodePoint_chars _ (by have := u.isLt; omega)
  | case5 u v rest hu ih =>
    simp only [encodeURIComponent, hu, if_true, Option.map_eq_some'] at h
    obtain ⟨e2, he2, rfl⟩ := h
    intro w hw
    rcases List.mem_cons.mp hw with rfl | hw
    · exact Or.inl hu
    · exact ih e2 he2 w hw
  | case6 u v rest hu ht => simp [encodeURIComponent, hu, ht] at h
  | case7 u v rest hu ht hl hv ih =>
    simp only [encodeURIComponent, hu, ht, hl, hv, if_true, Bool.false_eq_true, if_false,
      Option.map_eq_some'] at h
    obtain ⟨e2, he2, rfl⟩ := h
    intro w hw
    rcases List.mem_append.mp hw with hw | hw
    · exact escapeCodePoint_chars _ (surrogatePairToCodePoint_lt u v hl hv) w hw
    · exact ih e2 he2 w hw
  | case8 u v rest hu ht hl hv => simp [encodeURIComponent, hu, ht, hl, hv] at h
  | case9 u v rest hu ht hl ih =>
    simp only [encodeURIComponent, hu, ht, hl, Bool.false_eq_true, if_false,
      Option.map_eq_some'] at h
    obtain ⟨e2, he2, rfl⟩ := h
    intro w hw
    rcases List.mem_append.mp hw with hw | hw
    · exact escapeCodePoint_chars _ (by have := u.isLt; omega) w hw
    · exact ih e2 he2 w hw

theorem char_toNat_valid (c : Char) :
    c.toNat < 0xD800 ∨ (0xDFFF < c.toNat ∧ c.toNat < 0x110000) := by
  have h := c.valid
  exact h

theorem isUnreservedChar_iff (c : Char) :
    isUnreservedChar c = (decide (c.toNat < 0x80) && isUnescaped (Fin.ofNat c.toNat)) := by
  have hv := char_toNat_valid c
  have e : ∀ d : Char, (c == d) = (c.toNat == d.toNat) := by
    intro d
    rw [Bool.eq_iff_iff]
    simp only [beq_iff_eq]
    constructor
    · intro h; rw [h]
    · intro h; exact Char.ext (UInt32.ext h)
  simp only [isUnreservedChar, e, isUnescaped]
  by_cases h80 : c.toNat < 0x80
  · have hm : (Fin.ofNat c.toNat : CodeUnit).val = c.toNat := by
      show c.toNat % 65536 = c.toNat
      omega
    simp [hm, h80]
  · simp only [h80, decide_False, Bool.false_and]
    simp
    omega

theorem isUnreservedChar_eq (c : Char) (h : c.toNat < 0x10000) :
    isUnreservedChar c = isUnescaped (Fin.ofNat c.toNat) := by
  rw [isUnreservedChar_iff]
  have hm : (Fin.ofNat c.toNat : CodeUnit).val = c.toNat := by
    show c.toNat % 65536 = c.toNat
    omega
  by_cases h80 : c.toNat < 0x80
  · simp [h80]
  · simp only [h80, decide_False, Bool.false_and]
    symm
    simp only [isUnescaped, hm, Bool.or_eq_false_iff, Bool.and_eq_false_iff, decide_eq_false_iff_not,
      beq_eq_false_iff_ne, ne_eq]
    omega

theorem encodeURIComponent_cons_of_not_surrogate (u : CodeUnit) (rest : JSString)
    (hl : isLeadingSurrogate u = false) (ht : isTrailingSurrogate u = false) :
    encodeURIComponent (u :: rest) =
      (encodeURIComponent rest).map
        ((if isUnescaped u then [u] else escapeCodePoint u.val) ++ ·) := by
  cases rest with
  | nil =>
    by_cases hu : isUnescaped u = true
    · simp [encodeURIComponent, hu]
    · simp [encodeURIComponent, hu, hl, ht]
  | cons v rest2 =>
    by_cases hu : isUnescaped u = true
    · simp [encodeURIComponent, hu]
    · simp [encodeURIComponent, hu, hl, ht]

theorem encodeURIComponent_utf16Char (c : Char) (rest : JSString) :
    encodeURIComponent (utf16Char c ++ rest) =
      (encodeURIComponent rest).map
        ((if isUnreservedChar c then utf16Char c else escapeCodePoint c.toNat) ++ ·) := by
  have hv := char_toNat_valid c
  by_cases h : c.toNat < 0x10000
  · have hm : (Fin.ofNat c.toNat : CodeUnit).val = c.toNat := by
      show c.toNat % 65536 = c.toNat
      omega
    have hl : isLeadingSurrogate (Fin.ofNat c.toNat : CodeUnit) = false := by
      simp only [isLeadingSurrogate, hm, Bool.and_eq_false_iff, decide_eq_false_iff_not]
      omega
    have ht : isTrailingSurrogate (Fin.ofNat c.toNat : CodeUnit) = false := by
      simp only [isTrailingSurrogate, hm, Bool.and_eq_false_iff, decide_eq_false_iff_not]
      omega
    simp only [utf16Char, h, if_true, List.singleton_append,
      encodeURIComponent_cons_of_not_surrogate _ rest hl ht, isUnreservedChar_eq c h, hm]
  · have hhi : (Fin.ofNat (0xD800 + (c.toNat - 0x10000) / 0x400) : CodeUnit).val =
        0xD800 + (c.toNat - 0x10000) / 0x400 := by
      show (0xD800 + (c.toNat - 0x10000) / 0x400) % 65536 = _
      omega
    have hlo : (Fin.ofNat (0xDC00 + (c.toNat - 0x10000) % 0x400) : CodeUnit).val =
        0xDC00 + (c.toNat - 0x10000) % 0x400 := by
      show (0xDC00 + (c.toNat - 0x10000) % 0x400) % 65536 = _
      omega
    have hun : isUnreservedChar c = false := by
      rw [isUnreservedChar_iff]
      have : ¬ c.toNat < 0x80 := by omega
      simp [this]
    have h1 : isUnescaped (Fin.ofNat (0xD800 + (c.toNat - 0x10000) / 0x400) : CodeUnit) = false := by
      simp only [isUnescaped, hhi, Bool.or_eq_false_iff, Bool.and_eq_false_iff,
        decide_eq_false_iff_not, beq_eq_false_iff_ne, ne_eq]
      omega
    have h2 : isTrailingSurrogate
        (Fin.ofNat (0xD800 + (c.toNat - 0x10000) / 0x400) : CodeUnit) = false := by
      simp only [isTrailingSurrogate, hhi, Bool.and_eq_false_iff, decide_eq_false_iff_not]
      omega
    have h3 : isLeadingSurrogate
        (Fin.ofNat (0xD800 + (c.toNat - 0x10000) / 0x400) : CodeUnit) = true := by
      simp only [isLeadingSurrogate, hhi, Bool.and_eq_true, decide_eq_true_eq]
      omega
    have h4 : isTrailingSurrogate
        (Fin.ofNat (0xDC00 + (c.toNat - 0x10000) % 0x400) : CodeUnit) = true := by
      simp only [isTrailingSurrogate, hlo, Bool.and_eq_true, decide_eq_true_eq]
      omega
    have h5 : surrogatePairToCodePoint (Fin.ofNat (0xD800 + (c.toNat - 0x10000) / 0x400))
        (Fin.ofNat (0xDC00 + (c.toNat - 0x10000) % 0x400)) = c.toNat := by
      simp only [surrogatePairToCodePoint, hhi, hlo]
      omega
    simp only [utf16Char, h, if_false, List.cons_append, List.nil_append, encodeURIComponent, h1,
      h2, h3, h4, h5, hun, Bool.false_eq_true, if_true]

/-- On the UTF-16 form of a text `encodeURIComponent` returns its
percent-encoding: unreserved characters kept, every other character replaced
by the escapes of its UTF-8 octets. -/
theorem encodeURIComponent_utf16 (text : String) :
    encodeURIComponent (utf16 text) = some (percentEncode text) := by
  have h : ∀ cs : List Char, encodeURIComponent (cs.flatMap utf16Char) =
      some (cs.flatMap fun c =>
        if isUnreservedChar c then utf16Char c else escapeCodePoint c.toNat) := by
    intro cs
    induction cs with
    | nil => rfl
    | cons c rest ih =>
      simp only [List.flatMap_cons, encodeURIComponent_utf16Char, ih, Option.map_some']
  exact h text.data

theorem hexValue_hexDigit (n : Nat) (h : n < 16) : hexValue (hexDigit n) = some n := by
  interval_cases n <;> decide

theorem unescape_cons (u : CodeUnit) (rest : JSString) (h : u ≠ 0x25) :
    unescape (u :: rest) = (unescape rest).map (.inl u :: ·) := by
  rcases rest with _ | ⟨x, _ | ⟨y, rest2⟩⟩ <;> simp [unescape, h]

theorem unescape_escapeOctet (b : Nat) (rest : JSString) (h : b < 256) :
    unescape (escapeOctet b ++ rest) = (unescape rest).map (.inr b :: ·) := by
  have e : 16 * (b / 16) + b % 16 = b := by omega
  simp [escapeOctet, unescape, hexValue_hexDigit (b / 16) (by omega),
    hexValue_hexDigit (b % 16) (by omega), e]

theorem unescape_escapes (bs : List Nat) (rest : JSString) (h : ∀ b ∈ bs, b < 256) :
    unescape (bs.flatMap escapeOctet ++ rest) = (unescape rest).map (bs.map .inr ++ ·) := by
  induction bs with
  | nil => simp
  | cons b bs ih =>
    have hb := h b (List.mem_cons_self _ _)
    have hbs : ∀ x ∈ bs, x < 256 := fun x hx => h x (List.mem_cons_of_mem _ hx)
    rw [List.flatMap_cons, List.append_assoc, unescape_escapeOctet _ _ hb, ih hbs]
    cases unescape rest <;> rfl

theorem utf8Octets_lt (cp : Nat) (h : cp < 0x110000) : ∀ b ∈ utf8Octets cp, b < 256 := by
  intro b hb
  simp only [utf8Octets] at hb
  split at hb
  · simp at hb; omega
  · split at hb
    · simp at hb; omega
    · split at hb
      · simp at hb; omega
      · simp at hb; omega

theorem decodeFrom_utf8Octets (cp : Nat) (rest : List (CodeUnit ⊕ Nat))
    (h : cp < 0xD800 ∨ (0xDFFF < cp ∧ cp < 0x110000)) :
    decodeFrom 0 0 0 ((utf8Octets cp).map .inr ++ rest) =
      (decodeFrom 0 0 0 rest).map (utf16OfCodePoint cp ++ ·) := by
  have hc : ∀ x : Nat, isContinuation (0x80 + x % 0x40) = true := by
    intro x
    simp only [isContinuation, Bool.and_eq_true, decide_eq_true_eq]; omega
  simp only [utf8Octets]
  split
  · rename_i h1
    simp only [List.map_cons, List.map_nil, List.cons_append, List.nil_append, decodeFrom, h1,
      if_true, utf16OfCodePoint, show cp < 0x10000 by omega, List.singleton_append]
    rfl
  · split
    · rename_i h1 h2
      have a1 : ¬ (0xC0 + cp / 0x40 < 0x80) := by omega
      have a2 : ¬ (0xC0 + cp / 0x40 < 0xC0) := by omega
      have a3 : 0xC0 + cp / 0x40 < 0xE0 := by omega
      have a4 : (0xC0 + cp / 0x40 - 0xC0) * 0x40 + (0x80 + cp % 0x40 - 0x80) = cp := by omega
      have a6 : 0x80 ≤ cp ∧ cp ≤ 0x10FFFF ∧ ¬ (0xD800 ≤ cp ∧ cp ≤ 0xDFFF) := by omega
      simp only [List.map_cons, List.map_nil, List.cons_append, List.nil_append, decodeFrom, a1,
        a2, a3, a4, a6, hc, if_true, if_false, and_self, not_false_eq_true, one_ne_zero]
      rfl
    · split
      · rename_i h1 h2 h3
        have a1 : ¬ (0xE0 + cp / 0x1000 < 0x80) := by omega
        have a2 : ¬ (0xE0 + cp / 0x1000 < 0xC0) := by omega
        have a3 : ¬ (0xE0 + cp / 0x1000 < 0xE0) := by omega
        have a3b : 0xE0 + cp / 0x1000 < 0xF0 := by omega
        have a4 : ((0xE0 + cp / 0x1000 - 0xE0) * 0x40 + (0x80 + cp / 0x40 % 0x40 - 0x80)) * 0x40 +
            (0x80 + cp % 0x40 - 0x80) = cp := by omega
        have a6 : 0x800 ≤ cp ∧ cp ≤ 0x10FFFF ∧ ¬ (0xD800 ≤ cp ∧ cp ≤ 0xDFFF) := by omega
        simp only [List.map_cons, List.map_nil, List.cons_append, List.nil_append, decodeFrom, a1,
          a2, a3, a3b, a4, a6, hc, if_true, if_false, and_self, not_false_eq_true, one_ne_zero,
          show (2 : Nat) ≠ 0 by decide, show (2 : Nat) ≠ 1 by decide, show (2 : Nat) - 1 = 1 by rfl]
        rfl
      · rename_i h1 h2 h3
        have a1 : ¬ (0xF0 + cp / 0x40000 < 0x80) := by omega
        have a2 : ¬ (0xF0 + cp / 0x40000 < 0xC0) := by omega
        have a3 : ¬ (0xF0 + cp / 0x40000 < 0xE0) := by omega
        have a3b : ¬ (0xF0 + cp / 0x40000 < 0xF0) := by omega
        have a3c : 0xF0 + cp / 0x40000 < 0xF8 := by omega
        have a4 : (((0xF0 + cp / 0x40000 - 0xF0) * 0x40 + (0x80 + cp / 0x1000 % 0x40 - 0x80)) * 0x40 +
            (0x80 + cp / 0x40 % 0x40 - 0x80)) * 0x40 + (0x80 + cp % 0x40 - 0x80) = cp := by omega
        have a6 : 0x10000 ≤ cp ∧ cp ≤ 0x10FFFF ∧ ¬ (0xD800 ≤ cp ∧ cp ≤ 0xDFFF) := by omega
        simp only [List.map_cons, List.map_nil, List.cons_append, List.nil_append, decodeFrom, a1,
          a2, a3, a3b, a3c, a4, a6, hc, if_true, if_false, and_self, not_false_eq_true,
          one_ne_zero, show (3 : Nat) ≠ 0 by decide, show (3 : Nat) ≠ 1 by decide,
          show (3 : Nat) - 1 = 2 by rfl, show (2 : Nat) ≠ 0 by decide,
          show (2 : Nat) ≠ 1 by decide, show (2 : Nat) - 1 = 1 by rfl]
        rfl

theorem isUnescaped_ne_percent (u : CodeUnit) (h : isUnescaped u = true) : u ≠ 0x25 := by
  intro e
  subst e
  revert h
  decide

theorem ofNat_val (u : CodeUnit) : (Fin.ofNat u.val : CodeUnit) = u := by
  apply Fin.ext
  show u.val % 65536 = u.val
  have := u.isLt
  omega

theorem utf16OfCodePoint_val (u : CodeUnit) : utf16OfCodePoint u.val = [u] := by
  have h : u.val < 0x10000 := u.isLt
  simp only [utf16OfCodePoint, h, if_true, ofNat_val]

theorem utf16OfCodePoint_pair (u v : CodeUnit) (hu : isLeadingSurrogate u = true)
    (hv : isTrailingSurrogate v = true) :
    utf16OfCodePoint (surrogatePairToCodePoint u v) = [u, v] := by
  simp only [isLeadingSurrogate, isTrailingSurrogate, Bool.and_eq_true, decide_eq_true_eq] at hu hv
  have h1 : ¬ surrogatePairToCodePoint u v < 0x10000 := by
    simp only [surrogatePairToCodePoint]; omega
  have e1 : 0xD800 + (surrogatePairToCodePoint u v - 0x10000) / 0x400 = u.val := by
    simp only [surrogatePairToCodePoint]; omega
  have e2 : 0xDC00 + (surrogatePairToCodePoint u v - 0x10000) % 0x400 = v.val := by
    simp only [surrogatePairToCodePoint]; omega
  simp only [utf16OfCodePoint, h1, if_false, e1, e2, ofNat_val]

/-- What `encodeURIComponent` returns for `s` is prepared, step by step, to
decode back to `s`. -/
theorem decode_encodeURIComponent (s e : JSString) (h : encodeURIComponent s = some e) :
    ∃ tokens, unescape e = some tokens ∧ decodeFrom 0 0 0 tokens = some s := by
  have piece : ∀ (cp : Nat) (units e2 : JSString) (s2 : JSString),
      (cp < 0xD800 ∨ (0xDFFF < cp ∧ cp < 0x110000)) → utf16OfCodePoint cp = units →
      (∃ tokens, unescape e2 = some tokens ∧ decodeFrom 0 0 0 tokens = some s2) →
      ∃ tokens, unescape (escapeCodePoint cp ++ e2) = some tokens ∧
        decodeFrom 0 0 0 tokens = some (units ++ s2) := by
    intro cp units e2 s2 hcp hunits ⟨tokens, h1, h2⟩
    refine ⟨(utf8Octets cp).map .inr ++ tokens, ?_, ?_⟩
    · rw [escapeCodePoint, unescape_escapes _ _ (utf8Octets_lt cp (by omega)), h1]
      rfl
    · rw [decodeFrom_utf8Octets cp tokens hcp, h2, hunits]
      rfl
  have nonsur : ∀ u : CodeUnit, isLeadingSurrogate u = false → isTrailingSurrogate u = false →
      (u.val < 0xD800 ∨ (0xDFFF < u.val ∧ u.val < 0x110000)) := by
    intro u hl ht
    have := u.isLt
    simp only [isLeadingSurrogate, isTrailingSurrogate, Bool.and_eq_false_iff,
      decide_eq_false_iff_not] at hl ht
    omega
  induction s using encodeURIComponent.induct generalizing e with
  | case1 =>
    simp only [encodeURIComponent, Option.some.injEq] at h
    subst h
    exact ⟨[], rfl, rfl⟩
  | case2 u hu =>
    simp only [encodeURIComponent, hu, if_true, Option.some.injEq] at h
    subst h
    refine ⟨[.inl u], ?_, rfl⟩
    rw [unescape_cons u [] (isUnescaped_ne_percent u hu)]
    rfl
  | case3 u hu hs => simp [encodeURIComponent, hu, hs] at h
  | case4 u hu hs =>
    simp only [encodeURIComponent, hu, hs, Bool.false_eq_true, if_false, Option.some.injEq] at h
    subst h
    simp only [Bool.or_eq_true, not_or, Bool.not_eq_true] at hs
    have := piece u.val [u] [] [] (nonsur u hs.1 hs.2) (utf16OfCodePoint_val u) ⟨[], rfl, rfl⟩
    simpa using this
  | case5 u v rest hu ih =>
    simp only [encodeURIComponent, hu, if_true, Option.map_eq_some'] at h
    obtain ⟨e2, he2, rfl⟩ := h
    obtain ⟨tokens, h1, h2⟩ := ih e2 he2
    refine ⟨.inl u :: tokens, ?_, ?_⟩
    · rw [unescape_cons u e2 (isUnescaped_ne_percent u hu), h1]
      rfl
    · simp only [decodeFrom, if_true, h2]
      rfl
  | case6 u v rest hu ht => simp [encodeURIComponent, hu, ht] at h
  | case7 u v rest hu ht hl hv ih =>
    simp only [encodeURIComponent, hu, ht, hl, hv, if_true, Bool.false_eq_true, if_false,
      Option.map_eq_some'] at h
    obtain ⟨e2, he2, rfl⟩ := h
    have hcp : surrogatePairToCodePoint u v < 0xD800 ∨
        (0xDFFF < surrogatePairToCodePoint u v ∧ surrogatePairToCodePoint u v < 0x110000) := by
      have := surrogatePairToCodePoint_lt u v hl hv
      simp only [surrogatePairToCodePoint] at this ⊢
      omega
    exact piece _ [u, v] e2 rest hcp (utf16OfCodePoint_pair u v hl hv) (ih e2 he2)
  | case8 u v rest hu ht hl hv => simp [encodeURIComponent, hu, ht, hl, hv] at h
  | case9 u v rest hu ht hl ih =>
    simp only [encodeURIComponent, hu, ht, hl, Bool.false_eq_true, if_false,
      Option.map_eq_some'] at h
    obtain ⟨e2, he2, rfl⟩ := h
    have hl2 : isLeadingSurrogate u = false := by simpa using hl
    have ht2 : isTrailingSurrogate u = false := by simpa using ht
    exact piece u.val [u] e2 (v :: rest) (nonsur u hl2 ht2) (utf16OfCodePoint_val u) (ih e2 he2)

/-- Percent-decoding undoes `encodeURIComponent`. -/
theorem percentDecode_encodeURIComponent (s e : JSString) (h : encodeURIComponent s = some e) :
    percentDecode e = some s := by
  obtain ⟨tokens, h1, h2⟩ := decode_encodeURIComponent s e h
  simp [percentDecode, h1, decodeOctets, h2]

/-! ## The claims -/

/-- C1. When the name field or the genre field is empty or holds only white
space, a click on the recommend button only shows the alert: the page is left
as it was but for the alert text appended to the alerts, so no request is
made, the results markup and the hidden state of the loading indicator and of
the play-game button are unchanged and no listener is added, whatever the
count field holds. -/
theorem blank_input_only_alerts (p : Page)
    (h : (∀ u ∈ p.movieName, isWhiteSpace u = true) ∨
         (∀ u ∈ p.movieGenre, isWhiteSpace u = true)) :
    recommendButtonClick p =
        { p with alerts := p.alerts ++ [utf16 "Please enter both movie name and genre!"] } ∧
      (recommendButtonClick p).fetched = p.fetched ∧
      (recommendButtonClick p).pending = p.pending ∧
      (recommendButtonClick p).resultsHTML = p.resultsHTML ∧
      (recommendButtonClick p).loadingHidden = p.loadingHidden ∧
      (recommendButtonClick p).playGameHidden = p.playGameHidden ∧
      (recommendButtonClick p).playGameListeners = p.playGameListeners := by
  have hv : ((trim p.movieName).isEmpty || (trim p.movieGenre).isEmpty) = true := by
    rcases h with h | h
    · simp [(trim_eq_nil_iff _).mpr h]
    · simp [(trim_eq_nil_iff _).mpr h]
  simp [recommendButtonClick, hv, alertText]

/-- Witness of C1: a name of two spaces, with a genre and a count filled in. -/
theorem blank_input_only_alerts_witness :
    (recommendButtonClick
        { Page.loaded (utf16 "  ") (utf16 "Drama") (utf16 "7") (utf16 "old") true true with
          fetched := [utf16 "u"] }).fetched = [utf16 "u"] :=
  (blank_input_only_alerts
    { Page.loaded (utf16 "  ") (utf16 "Drama") (utf16 "7") (utf16 "old") true true with
      fetched := [utf16 "u"] }
    (Or.inl (List.all_eq_true.mp (by decide)))).2.1

/-- C2. When the trimmed name and the trimmed genre are both non-empty, a click
makes exactly one request, and its URL is the fixed endpoint followed by
`name=`, the percent-encoded trimmed name, `&genre=`, the percent-encoded
trimmed genre, `&count=` and the count text, where the percent-encoded texts
`n` and `g` are what `encodeURIComponent` returns.  On every text that is what
percent-encoding returns: unreserved characters kept, every other character
replaced by the `%XX` escapes of its UTF-8 octets.  Name Inception, genre
Sci-Fi and count 3 give the target `/api/recommend?name=Inception&genre=Sci-Fi&count=3`,
and the name The Matrix is sent as `name=The%20Matrix`. -/
theorem request_url :
    (∀ (p : Page) (n g : JSString), trim p.movieName ≠ [] → trim p.movieGenre ≠ [] →
      encodeURIComponent (trim p.movieName) = some n →
      encodeURIComponent (trim p.movieGenre) = some g →
      (recommendButtonClick p).fetched =
        p.fetched ++ [utf16 "http://localhost:8080/api/recommend?name=" ++ n ++
          utf16 "&genre=" ++ g ++ utf16 "&count=" ++ countText p.count]) ∧
    (∀ text : String, encodeURIComponent (utf16 text) = some (percentEncode text)) ∧
    (recommendButtonClick
        (Page.loaded (utf16 "Inception") (utf16 "Sci-Fi") (utf16 "3") [] true true)).fetched =
      [utf16 "http://localhost:8080" ++
        utf16 "/api/recommend?name=Inception&genre=Sci-Fi&count=3"] ∧
    (recommendButtonClick
        (Page.loaded (utf16 "The Matrix") (utf16 "Sci-Fi") (utf16 "3") [] true true)).fetched =
      [utf16 "http://localhost:8080/api/recommend?" ++ utf16 "name=The%20Matrix" ++
        utf16 "&genre=Sci-Fi&count=3"] := by
  exact ⟨recommendButtonClick_fetched, encodeURIComponent_utf16, by rfl, by rfl⟩

/-- Witness of C2: a name with a space, an accent and a character outside the
basic plane, padded with white space, and a genre with reserved characters. -/
theorem request_url_witness :
    (recommendButtonClick
        (Page.loaded (utf16 " Amélie 😀 ") (utf16 "R&B/Soul?") (utf16 "") [] true true)).fetched =
      [] ++ [utf16 "http://localhost:8080/api/recommend?name=" ++
        utf16 "Am%C3%A9lie%20%F0%9F%98%80" ++ utf16 "&genre=" ++ utf16 "R%26B%2FSoul%3F" ++
        utf16 "&count=" ++
        countText (Page.loaded (utf16 " Amélie 😀 ") (utf16 "R&B/Soul?") (utf16 "") [] true true).count] :=
  request_url.1 (Page.loaded (utf16 " Amélie 😀 ") (utf16 "R&B/Soul?") (utf16 "") [] true true)
    (utf16 "Am%C3%A9lie%20%F0%9F%98%80") (utf16 "R%26B%2FSoul%3F")
    (by decide) (by decide) (by rfl) (by rfl)

/-- C3 fails on the code: the count is inserted as it is.  With the count text
`2&genre=Horror` the request URL ends with `&count=2&genre=Horror`, and read as
a server reads it the query has four parameters, the genre twice, instead of
the three parameters name, genre and count with the values of the inputs.
Percent-encoding the count as line 27 does for the name and the genre would
have given `2%26genre%3DHorror`; what `encodeURIComponent` returns decodes back
to its argument and never holds an `&` or an `=`. -/
theorem count_is_not_encoded :
    (recommendButtonClick
        (Page.loaded (utf16 "The Matrix") (utf16 "Sci-Fi") (utf16 "2&genre=Horror") [] true
          true)).fetched =
      [utf16 "http://localhost:8080/api/recommend?name=The%20Matrix&genre=Sci-Fi&count=2&genre=Horror"] ∧
    queryParameters
        (utf16 "http://localhost:8080/api/recommend?name=The%20Matrix&genre=Sci-Fi&count=2&genre=Horror") =
      [(utf16 "name", some (utf16 "The Matrix")), (utf16 "genre", some (utf16 "Sci-Fi")),
       (utf16 "count", some (utf16 "2")), (utf16 "genre", some (utf16 "Horror"))] ∧
    queryParameters
        (utf16 "http://localhost:8080/api/recommend?name=The%20Matrix&genre=Sci-Fi&count=2&genre=Horror") ≠
      [(utf16 "name", some (utf16 "The Matrix")), (utf16 "genre", some (utf16 "Sci-Fi")),
       (utf16 "count", some (utf16 "2&genre=Horror"))] ∧
    encodeURIComponent (utf16 "2&genre=Horror") = some (utf16 "2%26genre%3DHorror") ∧
    (∀ s e : JSString, encodeURIComponent s = some e →
      percentDecode e = some s ∧ (0x26 : CodeUnit) ∉ e ∧ (0x3D : CodeUnit) ∉ e) := by
  refine ⟨by rfl, by rfl, by decide, by rfl, ?_⟩
  intro s e h
  refine ⟨percentDecode_encodeURIComponent s e h, ?_⟩
  constructor
  · intro hm
    rcases encodeURIComponent_chars s e h _ hm with h1 | h1
    · exact absurd h1 (by decide)
    · exact absurd h1 (by decide)
  · intro hm
    rcases encodeURIComponent_chars s e h _ hm with h1 | h1
    · exact absurd h1 (by decide)
    · exact absurd h1 (by decide)

/-- C4. When a click passes validation and the request is made, its URL ends
with `&count=5` if the count field is empty or holds only white space, and
otherwise with `&count=` followed by the trimmed text of the count field,
unchanged. -/
theorem count_default (p : Page) (n g : JSString)
    (hn : trim p.movieName ≠ []) (hg : trim p.movieGenre ≠ [])
    (en : encodeURIComponent (trim p.movieName) = some n)
    (eg : encodeURIComponent (trim p.movieGenre) = some g) :
    ∃ url, (recommendButtonClick p).fetched = p.fetched ++ [url] ∧
      ((∀ u ∈ p.count, isWhiteSpace u = true) → utf16 "&count=5" <:+ url) ∧
      (¬ (∀ u ∈ p.count, isWhiteSpace u = true) → utf16 "&count=" ++ trim p.count <:+ url) := by
  refine ⟨_, recommendButtonClick_fetched p n g hn hg en eg, ?_, ?_⟩
  · intro hb
    have : countText p.count = utf16 "5" := by
      simp [countText, (trim_eq_nil_iff _).mpr hb]
    rw [this]
    exact ⟨utf16 "http://localhost:8080/api/recommend?name=" ++ n ++ utf16 "&genre=" ++ g, by
      simp [utf16, utf16Char]⟩
  · intro hb
    have hne : trim p.count ≠ [] := fun h => hb ((trim_eq_nil_iff _).mp h)
    have : countText p.count = trim p.count := by
      simp [countText, List.isEmpty_iff, hne]
    rw [this]
    exact ⟨utf16 "http://localhost:8080/api/recommend?name=" ++ n ++ utf16 "&genre=" ++ g, by
      simp⟩

/-- Witness of C4: a count field of three spaces, and with it the default 5. -/
theorem count_default_witness :
    ∃ url, (recommendButtonClick
        (Page.loaded (utf16 "Up") (utf16 "Family") (utf16 "   ") [] true true)).fetched =
        (Page.loaded (utf16 "Up") (utf16 "Family") (utf16 "   ") [] true true).fetched ++ [url] ∧
      ((∀ u ∈ (Page.loaded (utf16 "Up") (utf16 "Family") (utf16 "   ") [] true true).count,
          isWhiteSpace u = true) → utf16 "&count=5" <:+ url) ∧
      (¬ (∀ u ∈ (Page.loaded (utf16 "Up") (utf16 "Family") (utf16 "   ") [] true true).count,
          isWhiteSpace u = true) →
        utf16 "&count=" ++
          trim (Page.loaded (utf16 "Up") (utf16 "Family") (utf16 "   ") [] true true).count
          <:+ url) :=
  count_default (Page.loaded (utf16 "Up") (utf16 "Family") (utf16 "   ") [] true true)
    (utf16 "Up") (utf16 "Family") (by decide) (by decide) (by rfl) (by rfl)

/-- C6. A response with a success status whose parsed body is the empty array
sets the results markup to exactly `<p>No recommendations found.</p>`, whatever
the results area held before; that markup holds neither the heading nor any
movie-card markup. -/
theorem empty_result (E : Engine) (p : Page) (r : Response)
    (hok : r.ok = true) (hjson : r.json = .ok (.arr [])) :
    (settle E (.fulfilled r) p).resultsHTML = utf16 "<p>No recommendations found.</p>" ∧
      ¬ (utf16 "Recommended Movies" <:+: (settle E (.fulfilled r) p).resultsHTML) ∧
      ¬ (utf16 "movie-card" <:+: (settle E (.fulfilled r) p).resultsHTML) := by
  have h : (settle E (.fulfilled r) p).resultsHTML = utf16 "<p>No recommendations found.</p>" := by
    simp [settle, responseCallback, hok, hjson, dataCallback, renderData, lengthIsZero,
      noRecommendations]
  rw [h]
  exact ⟨rfl, by decide, by decide⟩

/-- Witness of C6: status 200 and the body `[]`, on a page showing old cards. -/
theorem empty_result_witness :
    (settle ⟨fun _ _ => []⟩ (.fulfilled ⟨200, .ok (utf16 "[]"), .ok (.arr [])⟩)
        (Page.loaded [] [] [] (utf16 "<h2>Recommended Movies:</h2>") false false)).resultsHTML =
      utf16 "<p>No recommendations found.</p>" :=
  (empty_result ⟨fun _ _ => []⟩
    (Page.loaded [] [] [] (utf16 "<h2>Recommended Movies:</h2>") false false)
    ⟨200, .ok (utf16 "[]"), .ok (.arr [])⟩ rfl rfl).1

/-- C7. Every failure with message text `t` sets the results markup to exactly
`<p class="error-text">Error fetching recommendations: ` followed by `t` and
`</p>`: a response with a status outside 200-299 whose body text is `t`, a
rejected `fetch` whose error has the message `t`, a body that cannot be read as
text, and a success response whose body fails to parse as JSON with the
message `t`.  All of them render the same markup, `t` is part of it as it is,
and status 503 with the body `Service unavailable` renders a message holding
that text. -/
theorem failure_message (E : Engine) (p : Page) (t : JSString) :
    (∀ r : Response, r.ok = false → r.text = .ok t →
      (settle E (.fulfilled r) p).resultsHTML =
        utf16 "<p class=\"error-text\">Error fetching recommendations: " ++ t ++ utf16 "</p>") ∧
    (settle E (.rejected t) p).resultsHTML =
        utf16 "<p class=\"error-text\">Error fetching recommendations: " ++ t ++ utf16 "</p>" ∧
    (∀ r : Response, r.ok = false → r.text = .error t →
      (settle E (.fulfilled r) p).resultsHTML =
        utf16 "<p class=\"error-text\">Error fetching recommendations: " ++ t ++ utf16 "</p>") ∧
    (∀ r : Response, r.ok = true → r.json = .error t →
      (settle E (.fulfilled r) p).resultsHTML =
        utf16 "<p class=\"error-text\">Error fetching recommendations: " ++ t ++ utf16 "</p>") ∧
    t <:+: utf16 "<p class=\"error-text\">Error fetching recommendations: " ++ t ++ utf16 "</p>" ∧
    (settle E (.fulfilled ⟨503, .ok (utf16 "Service unavailable"), .error (utf16 "no JSON")⟩)
        p).resultsHTML =
      utf16 "<p class=\"error-text\">Error fetching recommendations: Service unavailable</p>" := by
  refine ⟨?_, ?_, ?_, ?_, ?_, ?_⟩
  · intro r hok htext
    simp [settle, responseCallback, hok, htext, catchCallback, errorHTML]
  · simp [settle, catchCallback, errorHTML]
  · intro r hok htext
    simp [settle, responseCallback, hok, htext, catchCallback, errorHTML]
  · intro r hok hjson
    simp [settle, responseCallback, hok, hjson, catchCallback, errorHTML]
  · exact ⟨utf16 "<p class=\"error-text\">Error fetching recommendations: ", utf16 "</p>", by
      simp⟩
  · rfl

/-- Witness of C7: status 404 with the body `Not found`. -/
theorem failure_message_witness :
    (settle ⟨fun _ _ => []⟩ (.fulfilled ⟨404, .ok (utf16 "Not found"), .error []⟩)
        (Page.loaded [] [] [] [] false false)).resultsHTML =
      utf16 "<p class=\"error-text\">Error fetching recommendations: " ++ utf16 "Not found" ++
        utf16 "</p>" :=
  (failure_message ⟨fun _ _ => []⟩ (Page.loaded [] [] [] [] false false) (utf16 "Not found")).1
    ⟨404, .ok (utf16 "Not found"), .error []⟩ rfl rfl

/-- C8. A click that passes validation shows the loading indicator and the
play-game button, and whatever the outcome of the request is (a success status
with any parsed body, a failure status with any body text, a rejected fetch, a
body that fails to parse), the callbacks leave both hidden. -/
theorem outcome_hides_indicators (E : Engine) (p : Page) (o : FetchResult)
    (hv : passesValidation p = true) :
    (recommendButtonClick p).loadingHidden = false ∧
      (recommendButtonClick p).playGameHidden = false ∧
      (settle E o (recommendButtonClick p)).loadingHidden = true ∧
      (settle E o (recommendButtonClick p)).playGameHidden = true := by
  have hs : ∀ q : Page, (settle E o q).loadingHidden = true ∧
      (settle E o q).playGameHidden = true := by
    intro q
    cases o with
    | rejected m => simp [settle, catchCallback]
    | fulfilled r =>
      simp only [settle]
      cases responseCallback r with
      | error m => simp [catchCallback]
      | ok data =>
        simp only [dataCallback]
        rcases renderData data with ⟨fault, value⟩ | html <;> simp [catchCallback]
  refine ⟨?_, ?_, (hs _).1, (hs _).2⟩
  · rw [recommendButtonClick_of_valid p hv]
    cases apiUrl (trim p.movieName) (trim p.movieGenre) (countText p.count) <;> rfl
  · rw [recommendButtonClick_of_valid p hv]
    cases apiUrl (trim p.movieName) (trim p.movieGenre) (countText p.count) <;> rfl

/-- Witness of C8: a success response whose body is the number 7. -/
theorem outcome_hides_indicators_witness :
    (settle ⟨fun _ _ => utf16 "TypeError"⟩
        (.fulfilled ⟨200, .ok (utf16 "7"), .ok (.num (utf16 "7"))⟩)
        (recommendButtonClick
          (Page.loaded (utf16 "Up") (utf16 "Family") [] [] true true))).loadingHidden = true :=
  (outcome_hides_indicators ⟨fun _ _ => utf16 "TypeError"⟩
    (Page.loaded (utf16 "Up") (utf16 "Family") [] [] true true)
    (.fulfilled ⟨200, .ok (utf16 "7"), .ok (.num (utf16 "7"))⟩) (by decide)).2.2.1

/-- C5. A response with a success status whose parsed body is a non-empty array
of Recommendation objects sets the results markup to the heading
`<h2>Recommended Movies:</h2>` followed by one card per entry, the cards in the
order of the entries, none dropped, none repeated.  Each card is the template
text around the six field values of its entry, in the order name, rating,
description, director, actors, similarity, inserted as they are.  A single
entry gives the heading and one card. -/
theorem cards_in_server_order (E : Engine) (p : Page) (r : Response) (items : List Json)
    (recs : List Recommendation) (hok : r.ok = true) (hjson : r.json = .ok (.arr items))
    (hne : items ≠ []) (hrec : List.Forall₂ IsRecommendation items recs) :
    (settle E (.fulfilled r) p).resultsHTML =
        utf16 "<h2>Recommended Movies:</h2>" ++ (recs.map Recommendation.card).flatten ∧
      (recs.map Recommendation.card).length = items.length ∧
      (∀ (i : Nat) (movie : Json) (card : JSString), items[i]? = some movie →
        (recs.map Recommendation.card)[i]? = some card → movieCard movie = .ok card) ∧
      (∀ rec ∈ recs, rec.card =
        utf16 "\n                        <div class=\"movie-card\">\n                            <h2>" ++
        rec.name ++
        utf16 "</h2>\n                            <p><strong>Rating:</strong> " ++
        rec.rating ++
        utf16 "</p>\n                            <p><strong>Description:</strong> " ++
        rec.description ++
        utf16 "</p>\n                            <p><strong>Director:</strong> " ++
        rec.director ++
        utf16 "</p>\n                            <p><strong>Actors:</strong> " ++
        rec.actors ++
        utf16 "</p>\n                            <p><strong>Similarity:</strong> " ++
        rec.similarity ++
        utf16 "</p>\n                        </div>\n                    ") ∧
      (∀ rec, recs = [rec] →
        (settle E (.fulfilled r) p).resultsHTML =
          utf16 "<h2>Recommended Movies:</h2>" ++ rec.card) := by
  have hlen : items.isEmpty = false := by
    cases items with
    | nil => exact absurd rfl hne
    | cons _ _ => rfl
  have hres : (settle E (.fulfilled r) p).resultsHTML =
      utf16 "<h2>Recommended Movies:</h2>" ++ (recs.map Recommendation.card).flatten := by
    simp [settle, responseCallback, hok, hjson, dataCallback, renderData, lengthIsZero, hlen,
      forEachCard_of_isRecommendation items recs hrec, heading, List.flatMap_def]
  refine ⟨hres, ?_, ?_, ?_, ?_⟩
  · simp [hrec.length_eq]
  · intro i movie card hi hc
    rw [List.getElem?_map] at hc
    cases hr : recs[i]? with
    | none => simp [hr] at hc
    | some rec =>
      simp only [hr, Option.map_some', Option.some.injEq] at hc
      subst hc
      have hi2 : i < items.length := by
        rcases List.getElem?_eq_some_iff.mp hi with ⟨h, _⟩; exact h
      have hr2 : i < recs.length := by
        rcases List.getElem?_eq_some_iff.mp hr with ⟨h, _⟩; exact h
      have := List.Forall₂.get hrec hi2 hr2
      have e1 : items.get ⟨i, hi2⟩ = movie := by
        rcases List.getElem?_eq_some_iff.mp hi with ⟨_, h⟩; exact h
      have e2 : recs.get ⟨i, hr2⟩ = rec := by
        rcases List.getElem?_eq_some_iff.mp hr with ⟨_, h⟩; exact h
      rw [e1, e2] at this
      exact movieCard_of_isRecommendation _ _ this
  · intro rec _
    rfl
  · intro rec hr
    rw [hres, hr]
    simp

/-- Witness of C5: two entries, the first with a numeric rating, the second
with its properties in another order and one more property. -/
theorem cards_in_server_order_witness :
    (settle v8 (.fulfilled ⟨200, .ok [], .ok (.arr twoMovies)⟩)
        (Page.loaded [] [] [] (utf16 "old") false false)).resultsHTML =
      utf16 "<h2>Recommended Movies:</h2>" ++
        (twoRecommendations.map Recommendation.card).flatten :=
  (cards_in_server_order v8 (Page.loaded [] [] [] (utf16 "old") false false)
    ⟨200, .ok [], .ok (.arr twoMovies)⟩ twoMovies twoRecommendations
    rfl rfl (by simp [twoMovies])
    (List.Forall₂.cons (by decide) (List.Forall₂.cons (by decide) List.Forall₂.nil))).1

/-- C9, as stated, fails: a click on the recommend button with empty fields is
an activation, yet it registers no listener on the play-game button, and a
press of that button then opens nothing. -/
theorem activation_without_listener :
    activations [Event.recommend] = 1 ∧
      (run v8 (Page.loaded [] [] [] [] true true) [Event.recommend]).playGameListeners = 0 ∧
      (run v8 (Page.loaded [] [] [] [] true true) [Event.recommend, Event.playGame]).opened =
        [] := by
  decide

/-- C9, amended. From page load, after any sequence of edits, clicks and
request outcomes, the number of click listeners on the play-game button is the
number of clicks on the recommend button that passed validation (both trimmed
name and trimmed genre non-empty), which is at most the number of clicks; one
press of the play-game button then opens `https://www.crazygames.com/` with
the target `_blank` once per listener. -/
theorem listeners_count_valid_activations (E : Engine)
    (movieName movieGenre count resultsHTML : JSString) (loadingHidden playGameHidden : Bool)
    (events : List Event) :
    (run E (Page.loaded movieName movieGenre count resultsHTML loadingHidden playGameHidden)
        events).playGameListeners =
      validActivations E
        (Page.loaded movieName movieGenre count resultsHTML loadingHidden playGameHidden) events ∧
    validActivations E
        (Page.loaded movieName movieGenre count resultsHTML loadingHidden playGameHidden) events ≤
      activations events ∧
    (run E (Page.loaded movieName movieGenre count resultsHTML loadingHidden playGameHidden)
        (events ++ [Event.playGame])).opened =
      (run E (Page.loaded movieName movieGenre count resultsHTML loadingHidden playGameHidden)
        events).opened ++
      List.replicate
        (validActivations E
          (Page.loaded movieName movieGenre count resultsHTML loadingHidden playGameHidden) events)
        (utf16 "https://www.crazygames.com/", utf16 "_blank") := by
  have h := run_playGameListeners E events
    (Page.loaded movieName movieGenre count resultsHTML loadingHidden playGameHidden)
  have h0 : (Page.loaded movieName movieGenre count resultsHTML loadingHidden
      playGameHidden).playGameListeners = 0 := rfl
  rw [h0, Nat.zero_add] at h
  refine ⟨h, validActivations_le E events _, ?_⟩
  simp only [run, List.foldl_append, List.foldl_cons, List.foldl_nil, step, playGameClick] at h ⊢
  rw [h]
  rfl

/-- C10, as stated, fails: the parsed body may be an object and still end on
the success path.  A success response with the body `{"length":0}` renders the
markup for an empty result, not an error message. -/
theorem object_with_length_zero :
    (settle v8
        (.fulfilled ⟨200, .ok (utf16 "\x7b\"length\":0\x7d"),
          .ok (.obj [(utf16 "length", .num (utf16 "0"))])⟩)
        (Page.loaded [] [] [] [] false false)).resultsHTML =
      utf16 "<p>No recommendations found.</p>" ∧
    ¬ (utf16 "<p class=\"error-text\">Error fetching recommendations: " <+:
      (settle v8
        (.fulfilled ⟨200, .ok (utf16 "\x7b\"length\":0\x7d"),
          .ok (.obj [(utf16 "length", .num (utf16 "0"))])⟩)
        (Page.loaded [] [] [] [] false false)).resultsHTML) := by
  decide

/-- C10, amended. A success response whose parsed body is `null`, a Number, a
boolean, a non-empty string, an array with a `null` element, or an object whose
own property `length` is not the Number 0, ends on the failure path: the
results markup is exactly `<p class="error-text">Error fetching recommendations: `
followed by the text the engine gives the TypeError and `</p>`, whatever
entries came before the `null`.  When the texts of the engine hold no `<`,
that markup holds neither the heading nor the opening tag of a movie card. -/
theorem malformed_body_is_error (E : Engine) (p : Page) (r : Response) (data : Json)
    (hok : r.ok = true) (hjson : r.json = .ok data) (hbad : notMovieList data = true) :
    (∃ fault value, (settle E (.fulfilled r) p).resultsHTML =
      utf16 "<p class=\"error-text\">Error fetching recommendations: " ++
        E.describe fault value ++ utf16 "</p>") ∧
    ((∀ fault value, (0x3C : CodeUnit) ∉ E.describe fault value) →
      ¬ (utf16 "<h2>Recommended Movies:</h2>" <:+: (settle E (.fulfilled r) p).resultsHTML) ∧
      ¬ (utf16 "<div class=\"movie-card\">" <:+: (settle E (.fulfilled r) p).resultsHTML)) := by
  obtain ⟨⟨fault, value⟩, he⟩ := renderData_of_notMovieList data hbad
  have hres : (settle E (.fulfilled r) p).resultsHTML = errorHTML (E.describe fault value) := by
    simp [settle, responseCallback, hok, hjson, dataCallback, he, catchCallback]
  refine ⟨⟨fault, value, by rw [hres]; rfl⟩, ?_⟩
  intro hE
  rw [hres]
  constructor
  · intro hin
    have h1 := adjacent_of_infix 0x3C 0x68 _ _ hin (by decide)
    rw [adjacent_errorHTML 0x68 _ (hE fault value) (by decide) (by decide)] at h1
    exact Bool.false_ne_true h1
  · intro hin
    have h1 := adjacent_of_infix 0x3C 0x64 _ _ hin (by decide)
    rw [adjacent_errorHTML 0x64 _ (hE fault value) (by decide) (by decide)] at h1
    exact Bool.false_ne_true h1

/-- Witness of C10: an array whose second element is `null`, after a
well-formed entry. -/
theorem malformed_body_is_error_witness :
    ∃ fault value,
      (settle v8
        (.fulfilled ⟨200, .ok [], .ok (.arr
          [.obj [(utf16 "name", .str (utf16 "Up"))], .null])⟩)
        (Page.loaded [] [] [] [] false false)).resultsHTML =
      utf16 "<p class=\"error-text\">Error fetching recommendations: " ++
        v8.describe fault value ++ utf16 "</p>" :=
  (malformed_body_is_error v8 (Page.loaded [] [] [] [] false false)
    ⟨200, .ok [], .ok (.arr [.obj [(utf16 "name", .str (utf16 "Up"))], .null])⟩
    (.arr [.obj [(utf16 "name", .str (utf16 "Up"))], .null]) rfl rfl rfl).1

end RecommendScript
